import Mathlib

/-!
Verification of the client-side data/state engine of the getleeta-task
repository against its natural-language specification.

The definitions below shallowly embed the relevant source code:

* the cart/favorites store (`stores/useStore.ts`, whose full text is kept at
  the end of `THEME_USAGE_GUIDE.md`, and whose interface and `addToCart` /
  `getCartTotal` bodies are also reproduced in
  `dev-docs/STATE_MANAGEMENT.md`);
* the detail-view quantity reconciliation (`hooks/useProductDetail.ts`);
* the catalog service functions (`services/api.ts` and the service file with
  `fetchProductsPage`);
* the infinite-query pagination configuration (`hooks/useAPI.ts`).

JavaScript numbers are modelled as `ℚ` where they carry prices/ratings and as
`ℤ` where they carry ids and quantities; fallible service calls take the
outcome of the underlying HTTP request as an explicit argument and return
`Except`.
-/

namespace Getleeta

/-- Rating of a product, from `types/api.ts`: `rating: { rate, count }`. -/
structure Rating where
  rate : ℚ
  count : ℚ
  deriving DecidableEq

/-- Catalog product, from `types/api.ts` (`Product`). -/
structure Product where
  id : ℤ
  title : String
  price : ℚ
  description : String
  category : String
  image : String
  rating : Rating
  deriving DecidableEq

/-- Cart line, from `types/api.ts` (`CartItem`): `{ product; quantity }`. -/
structure CartItem where
  product : Product
  quantity : ℤ
  deriving DecidableEq

/-- Sort options, from `types/api.ts` (`SortOption`). -/
inductive SortOption where
  | priceAsc
  | priceDesc
  | name
  | rating
  deriving DecidableEq

/-- State of the Zustand store, from `stores/useStore.ts`: cart lines,
favorites, and the non-persisted UI fields. -/
structure StoreState where
  cart : List CartItem
  favorites : List Product
  selectedCategory : Option String
  searchQuery : String
  sortBy : SortOption
  deriving DecidableEq

/-- Initial store state: empty cart and favorites, default UI fields
(`selectedCategory: null`, `searchQuery: ''`, `sortBy: 'name'`). -/
def initialStore : StoreState :=
  ⟨[], [], none, "", SortOption.name⟩

/-- `addToCart(product, quantity = 1)` from `stores/useStore.ts`: if a line
for `product.id` exists, increment its quantity by `quantity` via `map`;
otherwise append `{ product, quantity }`.  The JS default argument 1 is made
explicit at call sites. -/
def addToCart (s : StoreState) (product : Product) (quantity : ℤ) : StoreState :=
  match s.cart.find? (fun item => item.product.id == product.id) with
  | some _ =>
      { s with cart := s.cart.map (fun item =>
          if item.product.id == product.id then
            { item with quantity := item.quantity + quantity }
          else item) }
  | none => { s with cart := s.cart ++ [⟨product, quantity⟩] }

/-- `removeFromCart(productId)` from `stores/useStore.ts`: filter out the
lines whose product id equals `productId`. -/
def removeFromCart (s : StoreState) (productId : ℤ) : StoreState :=
  { s with cart := s.cart.filter (fun item => item.product.id != productId) }

/-- `updateQuantity(productId, quantity)` from `stores/useStore.ts`: map over
the cart, setting the quantity of the matching line to `quantity`.  No guard
removes the line when `quantity ≤ 0`. -/
def updateQuantity (s : StoreState) (productId : ℤ) (quantity : ℤ) : StoreState :=
  { s with cart := s.cart.map (fun item =>
      if item.product.id == productId then { item with quantity := quantity }
      else item) }

/-- `clearCart()` from `stores/useStore.ts`. -/
def clearCart (s : StoreState) : StoreState :=
  { s with cart := [] }

/-- `getCartTotal()` from `stores/useStore.ts`: a `reduce` of
`price * quantity` over the current cart, recomputed from the state on every
call. -/
def getCartTotal (s : StoreState) : ℚ :=
  s.cart.foldl (fun total item => total + item.product.price * (item.quantity : ℚ)) 0

/-- `getCartItemsCount()` from `stores/useStore.ts`: a `reduce` of the
quantities over the current cart. -/
def getCartItemsCount (s : StoreState) : ℤ :=
  s.cart.foldl (fun count item => count + item.quantity) 0

/-- `addToFavorites(product)` from `stores/useStore.ts`: no-op when an entry
with the same id exists, otherwise append the product. -/
def addToFavorites (s : StoreState) (product : Product) : StoreState :=
  match s.favorites.find? (fun p => p.id == product.id) with
  | some _ => s
  | none => { s with favorites := s.favorites ++ [product] }

/-- `removeFromFavorites(productId)` from `stores/useStore.ts`. -/
def removeFromFavorites (s : StoreState) (productId : ℤ) : StoreState :=
  { s with favorites := s.favorites.filter (fun p => p.id != productId) }

/-- `isFavorite(productId)` from `stores/useStore.ts`. -/
def isFavorite (s : StoreState) (productId : ℤ) : Bool :=
  s.favorites.any (fun p => p.id == productId)

/-- `clearFavorites()` from `stores/useStore.ts`. -/
def clearFavorites (s : StoreState) : StoreState :=
  { s with favorites := [] }

/-- Modelled from the spec: `quantityInCart(itemId)` returns 0 if absent,
else the line's quantity.  The store method `getProductQuantityInCart` that
`hooks/useProductDetail.ts` calls is declared by its callers and tests but
its body is not present in the repository snapshot. -/
def getProductQuantityInCart (s : StoreState) (productId : ℤ) : ℤ :=
  match s.cart.find? (fun item => item.product.id == productId) with
  | some item => item.quantity
  | none => 0

/-- Whether some cart line carries `productId`. -/
def inCart (s : StoreState) (productId : ℤ) : Bool :=
  (s.cart.find? (fun item => item.product.id == productId)).isSome

/-- Number of favorite entries carrying `productId`. -/
def favCount (s : StoreState) (productId : ℤ) : ℕ :=
  s.favorites.countP (fun p => p.id == productId)

/-- One cart mutation, in the vocabulary of the spec's testable property:
`addToCart`, `setQuantity` (named `updateQuantity` in the code), or
`removeFromCart`. -/
inductive CartOp where
  | add (product : Product) (quantity : ℤ)
  | setQty (productId : ℤ) (quantity : ℤ)
  | remove (productId : ℤ)
  deriving DecidableEq

/-- Apply one cart mutation to the store. -/
def applyOp (s : StoreState) : CartOp → StoreState
  | CartOp.add p q => addToCart s p q
  | CartOp.setQty productId q => updateQuantity s productId q
  | CartOp.remove productId => removeFromCart s productId

/-- Run a sequence of cart mutations from the initially empty store. -/
def runOps (ops : List CartOp) : StoreState :=
  ops.foldl applyOp initialStore

/-- The quantity argument of a mutation is at least 1 (removals carry none). -/
def opQtyOK : CartOp → Bool
  | CartOp.add _ q => 1 ≤ q
  | CartOp.setQty _ q => 1 ≤ q
  | CartOp.remove _ => true

/-- Every line of the cart has positive quantity. -/
def cartPositive (s : StoreState) : Prop :=
  ∀ item ∈ s.cart, 1 ≤ item.quantity

/-- No two cart lines share a product id. -/
def cartUnique (s : StoreState) : Prop :=
  (s.cart.map (fun item => item.product.id)).Nodup

/-- Displayed quantity of `useProductDetail` after the seeding effect:
`useState(1)` followed by `if (product && cartQuantity > 0)
setQuantity(cartQuantity)`. -/
def seededQuantity (s : StoreState) (p : Product) : ℤ :=
  if 0 < getProductQuantityInCart s p.id then getProductQuantityInCart s p.id
  else 1

/-- Store effect of `handleAddToCart` in `useProductDetail`: if
`cartQuantity > 0` call `updateQuantity(product.id, quantity)`, else call
`addToCart(product, quantity)`. -/
def confirmAddToCart (s : StoreState) (p : Product) (displayed : ℤ) : StoreState :=
  if 0 < getProductQuantityInCart s p.id then updateQuantity s p.id displayed
  else addToCart s p displayed

/-- Outcome of the underlying `apiClient.get` call, as observed by the catch
blocks of the service functions: success with data, an axios error optionally
carrying `error.response?.data?.message`, or any other thrown value. -/
inductive HttpOutcome (α : Type) where
  | ok (data : α)
  | axiosError (serverMessage : Option String)
  | otherError
  deriving DecidableEq

/-- A plain `new Error(message)` as rethrown by the service functions. -/
structure AppError where
  message : String
  deriving DecidableEq

/-- JavaScript `a || b` on an optional string `a`: the fallback is used when
the message is absent or falsy (the empty string). -/
def jsOr (m : Option String) (fallback : String) : String :=
  match m with
  | some msg => if msg = "" then fallback else msg
  | none => fallback

/-- `fetchProducts` from `services/api.ts`: return the data, or rethrow a
plain `Error` with the server message or the fixed fallback. -/
def fetchProducts (outcome : HttpOutcome (List Product)) :
    Except AppError (List Product) :=
  match outcome with
  | HttpOutcome.ok data => Except.ok data
  | HttpOutcome.axiosError m => Except.error ⟨jsOr m "Failed to fetch products"⟩
  | HttpOutcome.otherError => Except.error ⟨"Failed to fetch products"⟩

/-- `fetchProduct(id)` from `services/api.ts`. -/
def fetchProduct (id : ℤ) (outcome : HttpOutcome Product) :
    Except AppError Product :=
  match outcome with
  | HttpOutcome.ok data => Except.ok data
  | HttpOutcome.axiosError m =>
      Except.error ⟨jsOr m ("Failed to fetch product " ++ toString id)⟩
  | HttpOutcome.otherError =>
      Except.error ⟨"Failed to fetch product " ++ toString id⟩

/-- `fetchCategories` from `services/api.ts`. -/
def fetchCategories (outcome : HttpOutcome (List String)) :
    Except AppError (List String) :=
  match outcome with
  | HttpOutcome.ok data => Except.ok data
  | HttpOutcome.axiosError m =>
      Except.error ⟨jsOr m "Failed to fetch categories"⟩
  | HttpOutcome.otherError => Except.error ⟨"Failed to fetch categories"⟩

/-- `fetchProductsByCategory(category)` from `services/api.ts`. -/
def fetchProductsByCategory (category : String)
    (outcome : HttpOutcome (List Product)) : Except AppError (List Product) :=
  match outcome with
  | HttpOutcome.ok data => Except.ok data
  | HttpOutcome.axiosError m =>
      Except.error ⟨jsOr m ("Failed to fetch products in category: " ++ category)⟩
  | HttpOutcome.otherError =>
      Except.error ⟨"Failed to fetch products in category: " ++ category⟩

/-- The page window of `fetchProductsPage`: `data.slice(start, end)` with
`start = pageParam * limit` and `end = start + limit`. -/
def pageSlice (data : List Product) (pageParam limit : ℕ) : List Product :=
  (data.drop (pageParam * limit)).take limit

/-- `fetchProductsPage({ pageParam, limit, category })` from the service
file: fetch the whole (category) list and slice the simulated page out of
it, rethrowing a plain `Error` on failure. -/
def fetchProductsPage (pageParam limit : ℕ)
    (outcome : HttpOutcome (List Product)) : Except AppError (List Product) :=
  match outcome with
  | HttpOutcome.ok data => Except.ok (pageSlice data pageParam limit)
  | HttpOutcome.axiosError m =>
      Except.error ⟨jsOr m "Failed to fetch products page"⟩
  | HttpOutcome.otherError => Except.error ⟨"Failed to fetch products page"⟩

/-- `getNextPageParam(lastPage, allPages)` of `useInfiniteProducts` in
`hooks/useAPI.ts`: `undefined` when the last page is short, else the number
of pages already held. -/
def getNextPageParam (lastPage : List Product) (allPagesLength limit : ℕ) :
    Option ℕ :=
  if lastPage.length < limit then none else some allPagesLength

/-- Modelled from the spec: the page sequence produced by repeatedly calling
`fetchNextPage()` on a stable source list, starting from `initialPageParam:
0` and stopping once `getNextPageParam` returns `undefined`.  TanStack
Query's fetch loop itself is library code outside the repository; the page
request and the stopping rule are the repository's `fetchProductsPage` and
`getNextPageParam`.  Recursion is fuelled; `infiniteQueryPages` supplies
enough fuel. -/
def fetchAllPages (data : List Product) (limit : ℕ) : ℕ → ℕ → List (List Product)
  | _, 0 => []
  | p, fuel + 1 =>
      let page := pageSlice data p limit
      if page.length < limit then [page]
      else page :: fetchAllPages data limit (p + 1) fuel

/-- All pages held after exhausting `fetchNextPage()` on a stable source. -/
def infiniteQueryPages (data : List Product) (limit : ℕ) : List (List Product) :=
  fetchAllPages data limit 0 (data.length + 1)

/-- `placeholderData: (previousData) => previousData` of
`useInfiniteProducts` in `hooks/useAPI.ts`. -/
def placeholderData (previousData : Option (List Product)) :
    Option (List Product) :=
  previousData

/-- Modelled from the spec: the observer of the infinite query, as the UI
sees it across a filter switch.  `active` is the current filter, `resolved`
the data already fetched for it (if any), and `previous` the data the
observer displayed before the last filter switch, which
`placeholderData` re-exposes while the new filter's first page is pending.
TanStack Query's cache machinery is library code outside the repository. -/
structure InfiniteQueryView where
  active : Option String
  resolved : Option (List Product)
  previous : Option (List Product)
  deriving DecidableEq

/-- Modelled from the spec: the item sequence the UI reads — the resolved
data of the active filter when present, otherwise the placeholder, namely
the previously displayed data. -/
def displayedItems (v : InfiniteQueryView) : Option (List Product) :=
  match v.resolved with
  | some d => some d
  | none => placeholderData v.previous

/-- Modelled from the spec: switching the active filter; the new filter has
no resolved data yet, and the current display becomes the placeholder. -/
def setFilter (v : InfiniteQueryView) (b : Option String) : InfiniteQueryView :=
  ⟨b, none, displayedItems v⟩

/-- Modelled from the spec: the first page of the active filter resolves. -/
def resolveData (v : InfiniteQueryView) (items : List Product) :
    InfiniteQueryView :=
  { v with resolved := some items }

/-- The `id` argument of `useProduct(id: number | string)`: a JS number
(possibly `NaN`) or a string. -/
inductive JsId where
  | num (q : ℚ)
  | nan
  | str (s : String)
  deriving DecidableEq

/-- A JS number: a rational value or `NaN`. -/
inductive JsNumber where
  | val (q : ℚ)
  | nan
  deriving DecidableEq

/-- Value of a nonempty all-digit character sequence, `none` otherwise. -/
def parseDigits (cs : List Char) : Option ℕ :=
  if cs = [] then none
  else cs.foldl (fun acc c =>
    match acc with
    | some n => if c.isDigit then some (n * 10 + (c.toNat - 48)) else none
    | none => none) (some 0)

/-- Modelled JS `Number()` coercion on strings, restricted to optional-sign
decimal integer literals: the empty string coerces to 0, an integer literal
to its value, anything else to `NaN`. -/
def parseNumber (s : String) : JsNumber :=
  match s.data with
  | [] => JsNumber.val 0
  | '-' :: rest =>
      match parseDigits rest with
      | some n => JsNumber.val (-(n : ℚ))
      | none => JsNumber.nan
  | cs =>
      match parseDigits cs with
      | some n => JsNumber.val (n : ℚ)
      | none => JsNumber.nan

/-- JS truthiness of the `id` argument (`!!id`): 0, `NaN` and the empty
string are falsy. -/
def jsTruthy : JsId → Bool
  | JsId.num q => q != 0
  | JsId.nan => false
  | JsId.str s => s != ""

/-- The `productId` computed by `useProduct`:
`typeof id === 'string' ? Number(id) : id`. -/
def toNumber : JsId → JsNumber
  | JsId.num q => JsNumber.val q
  | JsId.nan => JsNumber.nan
  | JsId.str s => parseNumber s

/-- JS `a > b` where `a` may be `NaN`: comparisons with `NaN` are false. -/
def jsGt (a : JsNumber) (b : ℚ) : Bool :=
  match a with
  | JsNumber.val q => b < q
  | JsNumber.nan => false

/-- The `enabled` gate of `useProduct` in `hooks/useAPI.ts`:
`!!id && productId > 0`.  Per TanStack Query's contract a disabled query
never invokes its `queryFn`, so this gate decides whether `fetchProduct` can
run. -/
def useProductEnabled (id : JsId) : Bool :=
  jsTruthy id && jsGt (toNumber id) 0

/-- The product used by the repository's unit tests: id 1, price 29.99,
rating 4.5 with 100 votes. -/
def sampleProduct : Product :=
  ⟨1, "Test Product", mkRat 2999 100, "Test description", "electronics",
    "test.jpg", ⟨mkRat 9 2, 100⟩⟩

/-- Whether the HTTP call failed (an axios error or any other thrown
value). -/
def isFailureOutcome {α : Type} : HttpOutcome α → Bool
  | HttpOutcome.ok _ => false
  | HttpOutcome.axiosError _ => true
  | HttpOutcome.otherError => true

/-- The server-supplied message attached to a failing outcome, if any. -/
def outcomeServerMessage {α : Type} : HttpOutcome α → Option String
  | HttpOutcome.ok _ => none
  | HttpOutcome.axiosError m => m
  | HttpOutcome.otherError => none

/-- A map whose function preserves the search predicate commutes with
`find?`. -/
theorem find?_map_of_pres {α : Type} (p : α → Bool) (f : α → α)
    (hf : ∀ a, p (f a) = p a) :
    ∀ l : List α, (l.map f).find? p = (l.find? p).map f := by
  intro l
  induction l with
  | nil => rfl
  | cons x xs ih =>
      cases hx : p x with
      | true => simp [List.find?_cons, hf, hx]
      | false => simp [List.find?_cons, hf, hx, ih]

/-- The cart rewrite done by `updateQuantity` leaves each line's product id
unchanged. -/
theorem updateQuantity_pres_id (productId q : ℤ) :
    ∀ item : CartItem,
      (((if item.product.id == productId then { item with quantity := q }
          else item) : CartItem).product.id == productId)
        = (item.product.id == productId) := by
  intro item
  cases h : item.product.id == productId <;> simp [h]

/-- Folding an addition over a list equals the initial value plus the sum of
the mapped values. -/
theorem foldl_add_map_sum {α : Type} (g : α → ℚ) :
    ∀ (l : List α) (a : ℚ), l.foldl (fun t i => t + g i) a = a + (l.map g).sum := by
  intro l
  induction l with
  | nil => intro a; simp
  | cons x xs ih => intro a; simp [ih, add_assoc]

/-- C2: `getCartTotal()` returns exactly the sum over the currently held
cart lines of `line.product.price * line.quantity`.  The function reads only
the current state on every call, so after any mutation sequence its value is
this recomputed sum; no memoized or stale value exists in the embedding, as
in the source, where the selector is a `reduce` over `get().cart`. -/
theorem C2_getCartTotal_eq_sum (s : StoreState) :
    getCartTotal s
      = (s.cart.map (fun item => item.product.price * (item.quantity : ℚ))).sum := by
  simpa [getCartTotal] using
    foldl_add_map_sum (fun item => item.product.price * (item.quantity : ℚ)) s.cart 0

/-- C7 counterexample: starting from the empty store, `addToCart(X, 1)`
followed by `updateQuantity(X.id, 0)` leaves a cart line with quantity 0 in
the store, so `updateQuantity` with a non-positive quantity does not remove
the line as the claim states. -/
theorem C7_counterexample :
    ((updateQuantity (addToCart initialStore sampleProduct 1) sampleProduct.id 0).cart.any
        (fun item => decide (item.quantity ≤ 0))) = true := by
  decide

/-- C7 (amended): for every quantity `q ≤ 0`, `updateQuantity(itemId, q)`
neither rejects the call nor raises an error (it is a total function), but
it does not remove the line either: the line stays in the cart with its
quantity set to the non-positive `q`, and the number of lines is unchanged.
Removal on decrement below 1 is the caller's job — `handleDecrement` in
`CartScreen.tsx` calls `removeFromCart` instead of `updateQuantity`. -/
theorem C7_updateQuantity_keeps_line (s : StoreState) (productId q : ℤ)
    (_hq : q ≤ 0) (hin : inCart s productId = true) :
    inCart (updateQuantity s productId q) productId = true ∧
    getProductQuantityInCart (updateQuantity s productId q) productId = q ∧
    (updateQuantity s productId q).cart.length = s.cart.length := by
  have hfind := find?_map_of_pres (fun item => item.product.id == productId)
      (fun item => if item.product.id == productId then { item with quantity := q }
        else item)
      (updateQuantity_pres_id productId q) s.cart
  simp only [inCart] at hin
  obtain ⟨it, hit⟩ := Option.isSome_iff_exists.mp hin
  have hpt := List.find?_some hit
  refine ⟨?_, ?_, ?_⟩
  · dsimp only [inCart, updateQuantity]
    rw [hfind, hit]
    rfl
  · dsimp only [getProductQuantityInCart, updateQuantity]
    rw [hfind, hit]
    have heq : it.product.id = productId := by simpa using hpt
    simp [heq]
  · simp [updateQuantity]

/-- C7 witness: the amended theorem at the concrete run of the
counterexample input. -/
theorem C7_witness :
    inCart (updateQuantity (addToCart initialStore sampleProduct 1) 1 0) 1 = true ∧
    getProductQuantityInCart
        (updateQuantity (addToCart initialStore sampleProduct 1) 1 0) 1 = 0 ∧
    (updateQuantity (addToCart initialStore sampleProduct 1) 1 0).cart.length
      = (addToCart initialStore sampleProduct 1).cart.length :=
  C7_updateQuantity_keeps_line (addToCart initialStore sampleProduct 1) 1 0
    (by decide) (by decide)

/-- C8: favorites membership operations are idempotent.  Adding the same
product twice leaves exactly one favorite entry with its id, provided at
most one entry carried that id beforehand (the uniqueness invariant, which
holds by construction); removing an id that is not favorited returns the
store unchanged, a no-op rather than an error. -/
theorem C8_favorites_idempotent (s : StoreState) (p : Product) (productId : ℤ)
    (h1 : favCount s p.id ≤ 1) (h2 : isFavorite s productId = false) :
    favCount (addToFavorites (addToFavorites s p) p) p.id = 1 ∧
    removeFromFavorites s productId = s := by
  constructor
  · cases hfind : s.favorites.find? (fun q => q.id == p.id) with
    | none =>
        have hnone : ∀ a ∈ s.favorites, ¬ (a.id == p.id) = true :=
          List.find?_eq_none.mp hfind
        have hstep : addToFavorites s p = { s with favorites := s.favorites ++ [p] } := by
          simp [addToFavorites, hfind]
        have hfind2 : (s.favorites ++ [p]).find? (fun q => q.id == p.id) = some p := by
          simp [List.find?_append, hfind]
        have hstep2 :
            addToFavorites { s with favorites := s.favorites ++ [p] } p
              = { s with favorites := s.favorites ++ [p] } := by
          simp [addToFavorites, hfind2]
        rw [hstep, hstep2]
        simp [favCount, List.countP_append, List.countP_eq_zero.mpr hnone,
          List.countP_cons]
    | some x =>
        have hstep : addToFavorites s p = s := by
          simp [addToFavorites, hfind]
        rw [hstep, hstep]
        have hmem : x ∈ s.favorites := List.mem_of_find?_eq_some hfind
        have hpx := List.find?_some hfind
        have hpos : 0 < favCount s p.id := by
          rw [favCount, List.countP_pos_iff]
          exact ⟨x, hmem, hpx⟩
        omega
  · have hall : ∀ a ∈ s.favorites, (a.id != productId) = true := by
      intro a ha
      have hfalse : ∀ a ∈ s.favorites, ¬ (a.id == productId) = true := by
        simpa [isFavorite, List.any_eq_false] using h2
      simpa [bne] using hfalse a ha
    have hfilter : s.favorites.filter (fun q => q.id != productId) = s.favorites :=
      List.filter_eq_self.mpr hall
    simp [removeFromFavorites, hfilter]

/-- The cart rewrite done by the increment branch of `addToCart` leaves each
line's product id unchanged. -/
theorem addToCart_pres_id (pid q : ℤ) :
    ∀ item : CartItem,
      (((if item.product.id == pid then { item with quantity := item.quantity + q }
          else item) : CartItem).product.id == pid)
        = (item.product.id == pid) := by
  intro item
  cases h : item.product.id == pid <;> simp [h]

/-- With positive increment, `addToCart` preserves positivity of all cart
quantities. -/
theorem addToCart_positive (s : StoreState) (p : Product) (q : ℤ)
    (hq : 1 ≤ q) (hpos : cartPositive s) : cartPositive (addToCart s p q) := by
  intro item hmem
  cases hfind : s.cart.find? (fun it2 => it2.product.id == p.id) with
  | some x =>
      have hcart : (addToCart s p q).cart = s.cart.map
          (fun it2 => if it2.product.id == p.id then
            { it2 with quantity := it2.quantity + q } else it2) := by
        dsimp only [addToCart]
        rw [hfind]
      rw [hcart] at hmem
      obtain ⟨i, hi, rfl⟩ := List.mem_map.mp hmem
      by_cases hid : (i.product.id == p.id) = true
      · have := hpos i hi
        simp only [hid, if_true]
        omega
      · simp only [hid, if_false]
        exact hpos i hi
  | none =>
      have hcart : (addToCart s p q).cart = s.cart ++ [⟨p, q⟩] := by
        dsimp only [addToCart]
        rw [hfind]
      rw [hcart] at hmem
      rcases List.mem_append.mp hmem with h | h
      · exact hpos _ h
      · simp only [List.mem_singleton] at h
        rw [h]
        exact hq

/-- With positive quantity, `updateQuantity` preserves positivity of all
cart quantities. -/
theorem updateQuantity_positive (s : StoreState) (pid q : ℤ)
    (hq : 1 ≤ q) (hpos : cartPositive s) : cartPositive (updateQuantity s pid q) := by
  intro item hmem
  dsimp only [updateQuantity] at hmem
  obtain ⟨i, hi, rfl⟩ := List.mem_map.mp hmem
  by_cases hid : (i.product.id == pid) = true
  · simp only [hid, if_true]
    exact hq
  · simp only [hid, if_false]
    exact hpos i hi

/-- `removeFromCart` preserves positivity of all cart quantities. -/
theorem removeFromCart_positive (s : StoreState) (pid : ℤ)
    (hpos : cartPositive s) : cartPositive (removeFromCart s pid) := by
  intro item hmem
  dsimp only [removeFromCart] at hmem
  exact hpos item (List.mem_of_mem_filter hmem)

/-- `addToCart` preserves uniqueness of product ids across cart lines. -/
theorem addToCart_unique (s : StoreState) (p : Product) (q : ℤ)
    (h : cartUnique s) : cartUnique (addToCart s p q) := by
  cases hfind : s.cart.find? (fun it2 => it2.product.id == p.id) with
  | some x =>
      have hcart : (addToCart s p q).cart = s.cart.map
          (fun it2 => if it2.product.id == p.id then
            { it2 with quantity := it2.quantity + q } else it2) := by
        dsimp only [addToCart]
        rw [hfind]
      dsimp only [cartUnique]
      rw [hcart, List.map_map]
      have hmap : s.cart.map ((fun item => item.product.id) ∘
          (fun it2 => if it2.product.id == p.id then
            { it2 with quantity := it2.quantity + q } else it2))
          = s.cart.map (fun item => item.product.id) := by
        refine List.map_congr_left ?_
        intro a _
        by_cases hc : a.product.id = p.id <;> simp [hc]
      rw [hmap]
      exact h
  | none =>
      have hcart : (addToCart s p q).cart = s.cart ++ [⟨p, q⟩] := by
        dsimp only [addToCart]
        rw [hfind]
      dsimp only [cartUnique]
      rw [hcart, List.map_append, List.nodup_append]
      refine ⟨h, List.nodup_singleton _, ?_⟩
      intro a ha hb
      simp only [List.map_cons, List.map_nil, List.mem_singleton] at hb
      obtain ⟨i, hi, rfl⟩ := List.mem_map.mp ha
      have hne := List.find?_eq_none.mp hfind i hi
      simp only [hb] at hne
      simp at hne

/-- `updateQuantity` preserves uniqueness of product ids across cart
lines. -/
theorem updateQuantity_unique (s : StoreState) (pid q : ℤ)
    (h : cartUnique s) : cartUnique (updateQuantity s pid q) := by
  dsimp only [cartUnique, updateQuantity]
  rw [List.map_map]
  have hmap : s.cart.map ((fun item => item.product.id) ∘
      (fun item => if item.product.id == pid then { item with quantity := q }
        else item))
      = s.cart.map (fun item => item.product.id) := by
    refine List.map_congr_left ?_
    intro a _
    by_cases hc : a.product.id = pid <;> simp [hc]
  rw [hmap]
  exact h

/-- `removeFromCart` preserves uniqueness of product ids across cart
lines. -/
theorem removeFromCart_unique (s : StoreState) (pid : ℤ)
    (h : cartUnique s) : cartUnique (removeFromCart s pid) := by
  dsimp only [cartUnique, removeFromCart]
  refine List.Nodup.sublist ?_ h
  exact List.Sublist.map (fun item : CartItem => item.product.id)
    (List.filter_sublist s.cart)

/-- Both invariants, propagated along a fold of cart mutations from any
store satisfying them. -/
theorem runOps_inv_aux (ops : List CartOp) :
    ∀ s : StoreState, cartUnique s →
      cartUnique (ops.foldl applyOp s) ∧
      (cartPositive s → (∀ op ∈ ops, opQtyOK op = true) →
        cartPositive (ops.foldl applyOp s)) := by
  induction ops with
  | nil => exact fun s hu => ⟨hu, fun hp _ => hp⟩
  | cons op rest ih =>
      intro s hu
      have hstep_u : cartUnique (applyOp s op) := by
        cases op with
        | add p q => exact addToCart_unique s p q hu
        | setQty pid q => exact updateQuantity_unique s pid q hu
        | remove pid => exact removeFromCart_unique s pid hu
      obtain ⟨h1, h2⟩ := ih (applyOp s op) hstep_u
      refine ⟨by simpa [List.foldl_cons] using h1, ?_⟩
      intro hp hops
      have hop : opQtyOK op = true := hops op (List.mem_cons_self _ _)
      have hstep_p : cartPositive (applyOp s op) := by
        cases op with
        | add p q =>
            exact addToCart_positive s p q (by simpa [opQtyOK] using hop) hp
        | setQty pid q =>
            exact updateQuantity_positive s pid q (by simpa [opQtyOK] using hop) hp
        | remove pid => exact removeFromCart_positive s pid hp
      simpa [List.foldl_cons] using
        h2 hstep_p (fun o ho => hops o (List.mem_cons_of_mem _ ho))

/-- C1 counterexample: the operation sequence `addToCart(X, 1)` then
`setQuantity(X.id, 0)` (`updateQuantity` in the code), run from the empty
store, leaves a cart line with quantity ≤ 0, so the claimed invariant does
not hold for every operation sequence. -/
theorem C1_counterexample :
    ((runOps [CartOp.add sampleProduct 1, CartOp.setQty 1 0]).cart.any
        (fun item => decide (item.quantity ≤ 0))) = true := by
  decide

/-- C1 (amended): for every finite sequence of `addToCart`, `setQuantity`
(`updateQuantity` in the code) and `removeFromCart` operations applied to
the initially empty store, the cart never holds two lines whose item
snapshots share an id; and provided every `addToCart` and `setQuantity`
call passes a quantity ≥ 1 (as every UI call site does), the cart never
holds a line with quantity ≤ 0. -/
theorem C1_cart_invariants (ops : List CartOp) :
    cartUnique (runOps ops) ∧
    ((∀ op ∈ ops, opQtyOK op = true) → cartPositive (runOps ops)) := by
  have h := runOps_inv_aux ops initialStore (by simp [cartUnique, initialStore])
  refine ⟨h.1, fun hops => h.2 ?_ hops⟩
  intro item hmem
  simp [initialStore] at hmem

/-- C1 witness: the amended theorem at a concrete positive-quantity
sequence. -/
theorem C1_witness :
    cartUnique (runOps [CartOp.add sampleProduct 2, CartOp.setQty 1 5]) ∧
    cartPositive (runOps [CartOp.add sampleProduct 2, CartOp.setQty 1 5]) :=
  ⟨(C1_cart_invariants [CartOp.add sampleProduct 2, CartOp.setQty 1 5]).1,
    (C1_cart_invariants [CartOp.add sampleProduct 2, CartOp.setQty 1 5]).2 (by decide)⟩

/-- C3 counterexample: `addToCart(X, 0)` on the empty store creates a cart
line with quantity 0, so the claim's final clause — no call creates a line
with quantity ≤ 0, including when the argument is zero or negative — fails
on the code. -/
theorem C3_counterexample :
    ((addToCart initialStore sampleProduct 0).cart.any
        (fun item => decide (item.quantity ≤ 0))) = true := by
  decide

/-- C3 (amended): `addToCart(item, q)`: if a line with the item's id exists,
the call increments that line's quantity by `q` and adds no new line;
otherwise it appends exactly one new line with quantity `q`.  The call never
creates a line with quantity ≤ 0 provided `q ≥ 1` and all existing
quantities are positive; for `q ≤ 0` the unguarded code does create such a
line. -/
theorem C3_addToCart_spec (s : StoreState) (p : Product) (q : ℤ) :
    (inCart s p.id = true →
      (addToCart s p q).cart.length = s.cart.length ∧
      getProductQuantityInCart (addToCart s p q) p.id
        = getProductQuantityInCart s p.id + q) ∧
    (inCart s p.id = false →
      (addToCart s p q).cart = s.cart ++ [⟨p, q⟩]) ∧
    (1 ≤ q → cartPositive s → cartPositive (addToCart s p q)) := by
  refine ⟨?_, ?_, ?_⟩
  · intro hin
    simp only [inCart] at hin
    obtain ⟨it, hit⟩ := Option.isSome_iff_exists.mp hin
    have hfind := find?_map_of_pres (fun item => item.product.id == p.id)
        (fun item => if item.product.id == p.id then
          { item with quantity := item.quantity + q } else item)
        (addToCart_pres_id p.id q) s.cart
    have hpt := List.find?_some hit
    have heq : it.product.id = p.id := by simpa using hpt
    have hcart : (addToCart s p q).cart = s.cart.map
        (fun item => if item.product.id == p.id then
          { item with quantity := item.quantity + q } else item) := by
      dsimp only [addToCart]
      rw [hit]
    constructor
    · rw [hcart]
      exact List.length_map _ _
    · dsimp only [getProductQuantityInCart]
      rw [hcart, hfind, hit]
      simp [heq]
  · intro hout
    cases hfind : s.cart.find? (fun item => item.product.id == p.id) with
    | some x => simp [inCart, hfind] at hout
    | none =>
        dsimp only [addToCart]
        rw [hfind]
  · exact fun hq hpos => addToCart_positive s p q hq hpos

/-- C3 witness: the fresh-item branch of the amended theorem at the empty
store. -/
theorem C3_witness :
    (addToCart initialStore sampleProduct 2).cart
      = initialStore.cart ++ [⟨sampleProduct, 2⟩] :=
  (C3_addToCart_spec initialStore sampleProduct 2).2.1 (by decide)

/-- C8 witness: the theorem at the empty store with the sample product and a
non-favorited id. -/
theorem C8_witness :
    favCount (addToFavorites (addToFavorites initialStore sampleProduct) sampleProduct)
        sampleProduct.id = 1 ∧
    removeFromFavorites initialStore 2 = initialStore :=
  C8_favorites_idempotent initialStore sampleProduct 2 (by decide) (by decide)

/-- A positive cart quantity for an id means the find on that id
succeeds. -/
theorem getQty_ne_zero_isSome (s : StoreState) (pid : ℤ)
    (h : getProductQuantityInCart s pid ≠ 0) :
    (s.cart.find? (fun item => item.product.id == pid)).isSome = true := by
  dsimp only [getProductQuantityInCart] at h
  cases hf : s.cart.find? (fun item => item.product.id == pid) with
  | some it => rfl
  | none => rw [hf] at h; simp at h

/-- After `updateQuantity(pid, d)` on a cart holding a line for `pid`, the
quantity read back for `pid` is `d`. -/
theorem getQty_after_update (s : StoreState) (pid d : ℤ)
    (hin : (s.cart.find? (fun item => item.product.id == pid)).isSome = true) :
    getProductQuantityInCart (updateQuantity s pid d) pid = d := by
  obtain ⟨it, hit⟩ := Option.isSome_iff_exists.mp hin
  have hfind := find?_map_of_pres (fun item => item.product.id == pid)
      (fun item => if item.product.id == pid then { item with quantity := d }
        else item)
      (updateQuantity_pres_id pid d) s.cart
  have heq : it.product.id = pid := by simpa using List.find?_some hit
  dsimp only [getProductQuantityInCart, updateQuantity]
  rw [hfind, hit]
  simp [heq]

/-- After `addToCart(p, d)` on a store whose cart reads quantity 0 for
`p.id` (no line, or a line with quantity 0), the quantity read back for
`p.id` is `d`. -/
theorem getQty_after_add (s : StoreState) (p : Product) (d : ℤ)
    (h0 : getProductQuantityInCart s p.id = 0) :
    getProductQuantityInCart (addToCart s p d) p.id = d := by
  cases hfind : s.cart.find? (fun item => item.product.id == p.id) with
  | none =>
      have hcart : (addToCart s p d).cart = s.cart ++ [⟨p, d⟩] := by
        dsimp only [addToCart]
        rw [hfind]
      dsimp only [getProductQuantityInCart]
      rw [hcart, List.find?_append, hfind]
      simp [List.find?_cons]
  | some it =>
      have hq0 : it.quantity = 0 := by
        dsimp only [getProductQuantityInCart] at h0
        rw [hfind] at h0
        exact h0
      have hfindm := find?_map_of_pres (fun item => item.product.id == p.id)
          (fun item => if item.product.id == p.id then
            { item with quantity := item.quantity + d } else item)
          (addToCart_pres_id p.id d) s.cart
      have heq : it.product.id = p.id := by simpa using List.find?_some hfind
      have hcart : (addToCart s p d).cart = s.cart.map
          (fun item => if item.product.id == p.id then
            { item with quantity := item.quantity + d } else item) := by
        dsimp only [addToCart]
        rw [hfind]
      dsimp only [getProductQuantityInCart]
      rw [hcart, hfindm, hfind]
      simp [heq, hq0]

/-- C4: detail-view reconciliation never compounds an existing cart
quantity.  With `c` the cart quantity for item `p` at open time: if `c > 0`
the displayed quantity seeds to `c` and confirming with displayed quantity
`d` performs the replace operation `updateQuantity`; if `c = 0` the
displayed quantity seeds to 1 and confirming calls `addToCart` with the
displayed quantity.  In both cases the cart quantity afterwards is exactly
`d`; in particular `addToCart(X, 2)` then open-detail (seeds 2), set to 5,
confirm yields quantity 5, not 7. -/
theorem C4_reconciler (s : StoreState) (p : Product) (d : ℤ) :
    (0 < getProductQuantityInCart s p.id →
      seededQuantity s p = getProductQuantityInCart s p.id ∧
      confirmAddToCart s p d = updateQuantity s p.id d) ∧
    (getProductQuantityInCart s p.id = 0 →
      seededQuantity s p = 1 ∧
      confirmAddToCart s p d = addToCart s p d) ∧
    (0 ≤ getProductQuantityInCart s p.id →
      getProductQuantityInCart (confirmAddToCart s p d) p.id = d) ∧
    getProductQuantityInCart
      (confirmAddToCart (addToCart initialStore p 2) p 5) p.id = 5 := by
  refine ⟨?_, ?_, ?_, ?_⟩
  · intro hc
    exact ⟨by simp [seededQuantity, hc], by simp [confirmAddToCart, hc]⟩
  · intro hc
    exact ⟨by simp [seededQuantity, hc], by simp [confirmAddToCart, hc]⟩
  · intro hge
    by_cases hc : 0 < getProductQuantityInCart s p.id
    · have hconf : confirmAddToCart s p d = updateQuantity s p.id d := by
        simp [confirmAddToCart, hc]
      rw [hconf]
      exact getQty_after_update s p.id d (getQty_ne_zero_isSome s p.id (by omega))
    · have h0 : getProductQuantityInCart s p.id = 0 := by omega
      have hconf : confirmAddToCart s p d = addToCart s p d := by
        simp [confirmAddToCart, hc]
      rw [hconf]
      exact getQty_after_add s p d h0
  · have h2 : getProductQuantityInCart (addToCart initialStore p 2) p.id = 2 :=
      getQty_after_add initialStore p 2 rfl
    have hconf : confirmAddToCart (addToCart initialStore p 2) p 5
        = updateQuantity (addToCart initialStore p 2) p.id 5 := by
      simp [confirmAddToCart, h2]
    rw [hconf]
    exact getQty_after_update _ p.id 5 (getQty_ne_zero_isSome _ p.id (by omega))

/-- C4 witness: the replace path of the theorem at the concrete sample
scenario. -/
theorem C4_witness :
    getProductQuantityInCart
      (confirmAddToCart (addToCart initialStore sampleProduct 2) sampleProduct 5)
      sampleProduct.id = 5 :=
  (C4_reconciler (addToCart initialStore sampleProduct 2) sampleProduct 5).2.2.1
    (by decide)

/-- C6: placeholder retention across a filter switch.  If the observer
displays `items` for filter A, then after `setFilter(B)` and before B's
first page resolves the displayed sequence is still exactly `items` — never
transiently empty — and once B's first page resolves the display becomes
exactly the new page's items. -/
theorem C6_no_flicker (v : InfiniteQueryView) (b : Option String)
    (items : List Product) (h : displayedItems v = some items) :
    displayedItems (setFilter v b) = some items ∧
    (∀ newItems : List Product,
      displayedItems (resolveData (setFilter v b) newItems) = some newItems) :=
  ⟨h, fun _ => rfl⟩

/-- C6 witness: the theorem at a concrete observer displaying one item. -/
theorem C6_witness :
    displayedItems (setFilter ⟨some "A", some [sampleProduct], none⟩ (some "B"))
      = some [sampleProduct] :=
  (C6_no_flicker ⟨some "A", some [sampleProduct], none⟩ (some "B")
    [sampleProduct] rfl).1

/-- C9: each catalog service function maps every failing HTTP outcome to a
plain error value carrying the server-supplied message when one is present
and truthy, and the function's fixed fallback message otherwise; the caller
observes only this plain error, never the transport error. -/
theorem C9_service_error_wrapping (id : ℤ) (category : String)
    (pageParam limit : ℕ)
    (o1 : HttpOutcome (List Product)) (o2 : HttpOutcome Product)
    (o3 : HttpOutcome (List String)) (o4 : HttpOutcome (List Product))
    (o5 : HttpOutcome (List Product))
    (h1 : isFailureOutcome o1 = true) (h2 : isFailureOutcome o2 = true)
    (h3 : isFailureOutcome o3 = true) (h4 : isFailureOutcome o4 = true)
    (h5 : isFailureOutcome o5 = true) :
    (∃ e : AppError, fetchProducts o1 = Except.error e ∧
      e.message = jsOr (outcomeServerMessage o1) "Failed to fetch products") ∧
    (∃ e : AppError, fetchProduct id o2 = Except.error e ∧
      e.message = jsOr (outcomeServerMessage o2)
        ("Failed to fetch product " ++ toString id)) ∧
    (∃ e : AppError, fetchCategories o3 = Except.error e ∧
      e.message = jsOr (outcomeServerMessage o3) "Failed to fetch categories") ∧
    (∃ e : AppError, fetchProductsByCategory category o4 = Except.error e ∧
      e.message = jsOr (outcomeServerMessage o4)
        ("Failed to fetch products in category: " ++ category)) ∧
    (∃ e : AppError, fetchProductsPage pageParam limit o5 = Except.error e ∧
      e.message = jsOr (outcomeServerMessage o5)
        "Failed to fetch products page") := by
  refine ⟨?_, ?_, ?_, ?_, ?_⟩
  · cases o1 with
    | ok d => simp [isFailureOutcome] at h1
    | axiosError m => exact ⟨⟨jsOr m "Failed to fetch products"⟩, rfl, rfl⟩
    | otherError => exact ⟨⟨"Failed to fetch products"⟩, rfl, rfl⟩
  · cases o2 with
    | ok d => simp [isFailureOutcome] at h2
    | axiosError m =>
        exact ⟨⟨jsOr m ("Failed to fetch product " ++ toString id)⟩, rfl, rfl⟩
    | otherError =>
        exact ⟨⟨"Failed to fetch product " ++ toString id⟩, rfl, rfl⟩
  · cases o3 with
    | ok d => simp [isFailureOutcome] at h3
    | axiosError m => exact ⟨⟨jsOr m "Failed to fetch categories"⟩, rfl, rfl⟩
    | otherError => exact ⟨⟨"Failed to fetch categories"⟩, rfl, rfl⟩
  · cases o4 with
    | ok d => simp [isFailureOutcome] at h4
    | axiosError m =>
        exact ⟨⟨jsOr m ("Failed to fetch products in category: " ++ category)⟩,
          rfl, rfl⟩
    | otherError =>
        exact ⟨⟨"Failed to fetch products in category: " ++ category⟩, rfl, rfl⟩
  · cases o5 with
    | ok d => simp [isFailureOutcome] at h5
    | axiosError m => exact ⟨⟨jsOr m "Failed to fetch products page"⟩, rfl, rfl⟩
    | otherError => exact ⟨⟨"Failed to fetch products page"⟩, rfl, rfl⟩

/-- C9 witness: the theorem at concrete failing outcomes, including a
missing message, an empty (falsy) message and non-axios errors. -/
theorem C9_witness :
    (∃ e : AppError,
      fetchProducts (HttpOutcome.axiosError (some "boom")) = Except.error e ∧
      e.message = jsOr (outcomeServerMessage
        (HttpOutcome.axiosError (some "boom") : HttpOutcome (List Product)))
        "Failed to fetch products") ∧
    (∃ e : AppError,
      fetchProduct 7 HttpOutcome.otherError = Except.error e ∧
      e.message = jsOr (outcomeServerMessage (HttpOutcome.otherError : HttpOutcome Product))
        ("Failed to fetch product " ++ toString (7 : ℤ))) ∧
    (∃ e : AppError,
      fetchCategories (HttpOutcome.axiosError none) = Except.error e ∧
      e.message = jsOr (outcomeServerMessage
        (HttpOutcome.axiosError none : HttpOutcome (List String)))
        "Failed to fetch categories") ∧
    (∃ e : AppError,
      fetchProductsByCategory "electronics" (HttpOutcome.axiosError (some ""))
        = Except.error e ∧
      e.message = jsOr (outcomeServerMessage
        (HttpOutcome.axiosError (some "") : HttpOutcome (List Product)))
        ("Failed to fetch products in category: " ++ "electronics")) ∧
    (∃ e : AppError,
      fetchProductsPage 0 10 HttpOutcome.otherError = Except.error e ∧
      e.message = jsOr (outcomeServerMessage
        (HttpOutcome.otherError : HttpOutcome (List Product)))
        "Failed to fetch products page") :=
  C9_service_error_wrapping 7 "electronics" 0 10
    (HttpOutcome.axiosError (some "boom")) HttpOutcome.otherError
    (HttpOutcome.axiosError none) (HttpOutcome.axiosError (some ""))
    HttpOutcome.otherError rfl rfl rfl rfl rfl

/-- Page windows shift: the page after window `p` in the full list is
window `p` of the list with one window dropped. -/
theorem pageSlice_succ (data : List Product) (p limit : ℕ) :
    pageSlice data (p + 1) limit = pageSlice (data.drop limit) p limit := by
  dsimp only [pageSlice]
  rw [List.drop_drop]
  have harith : (p + 1) * limit = limit + p * limit := by ring
  rw [harith]

/-- Starting the fuelled fetch loop at page `p + 1` equals starting it at
page `p` on the list with the first window removed. -/
theorem fetchAllPages_shift (limit : ℕ) :
    ∀ (fuel p : ℕ) (data : List Product),
      fetchAllPages data limit (p + 1) fuel
        = fetchAllPages (data.drop limit) limit p fuel := by
  intro fuel
  induction fuel with
  | zero => intro p data; rfl
  | succ n ih =>
      intro p data
      dsimp only [fetchAllPages]
      rw [pageSlice_succ, ih (p + 1) data]

/-- Characterization of the fuelled fetch loop for sufficient fuel: the
produced pages number `length / limit + 1`, they concatenate to exactly the
source list, every page but the last is exactly full, and the last page is
short. -/
theorem fetchAllPages_spec (limit : ℕ) (hl : 0 < limit) :
    ∀ (fuel : ℕ) (data : List Product), data.length < fuel →
      (fetchAllPages data limit 0 fuel).length = data.length / limit + 1 ∧
      (fetchAllPages data limit 0 fuel).flatten = data ∧
      (∀ pg ∈ (fetchAllPages data limit 0 fuel).dropLast, pg.length = limit) ∧
      (∀ pg, (fetchAllPages data limit 0 fuel).getLast? = some pg →
        pg.length < limit) := by
  intro fuel
  induction fuel with
  | zero => intro data h; exact absurd h (Nat.not_lt_zero _)
  | succ n ih =>
      intro data hlen
      have hp0 : pageSlice data 0 limit = data.take limit := by
        dsimp only [pageSlice]
        rw [Nat.zero_mul, List.drop_zero]
      by_cases hshort : data.length < limit
      · have htake : data.take limit = data :=
          List.take_of_length_le (le_of_lt hshort)
        dsimp only [fetchAllPages]
        rw [hp0, htake, if_pos hshort]
        refine ⟨?_, ?_, ?_, ?_⟩
        · simp [Nat.div_eq_of_lt hshort]
        · simp
        · intro pg hpg
          simp at hpg
        · intro pg hpg
          rw [List.getLast?_singleton] at hpg
          cases hpg
          exact hshort
      · have hge : limit ≤ data.length := le_of_not_lt hshort
        have hlen_take : (data.take limit).length = limit := by
          rw [List.length_take]
          omega
        have hdlen : (data.drop limit).length < n := by
          rw [List.length_drop]
          omega
        obtain ⟨ih1, ih2, ih3, ih4⟩ := ih (data.drop limit) hdlen
        obtain ⟨r, rs, hcons⟩ :
            ∃ r rs, fetchAllPages (data.drop limit) limit 0 n = r :: rs := by
          cases hfp : fetchAllPages (data.drop limit) limit 0 n with
          | nil =>
              rw [hfp] at ih1
              simp at ih1
          | cons r rs => exact ⟨r, rs, rfl⟩
        rw [hcons] at ih1 ih2 ih3 ih4
        dsimp only [fetchAllPages]
        rw [hp0, if_neg (by rw [hlen_take]; omega)]
        rw [fetchAllPages_shift limit n 0 data, hcons]
        refine ⟨?_, ?_, ?_, ?_⟩
        · rw [List.length_cons, ih1, List.length_drop,
            Nat.div_eq_sub_div hl hge]
        · rw [List.flatten_cons, ih2, List.take_append_drop]
        · intro pg hpg
          rw [List.dropLast_cons₂] at hpg
          rcases List.mem_cons.mp hpg with h | h
          · rw [h]
            exact hlen_take
          · exact ih3 pg h
        · intro pg hpg
          rw [List.getLast?_cons_cons] at hpg
          exact ih4 pg hpg

/-- C5 counterexample: with one source item and page size 1 — N = P = 1, so
⌈N/P⌉ = 1 — exhausting `fetchNextPage()` yields two pages, the full page and
a final empty page, not exactly ⌈N/P⌉ pages as claimed. -/
theorem C5_counterexample :
    (infiniteQueryPages [sampleProduct] 1).length ≠ 1 := by
  decide

/-- C5 (amended): for a stable source list with pairwise-distinct ids and
page size `limit > 0`: the page request for index `p` returns the window
`[p*limit, p*limit+limit)` of the source's full list; the pages obtained by
exhausting `fetchNextPage()` concatenate to exactly the source list, hence
no duplicate ids across the flattened sequence; and `hasMore` becomes false
exactly when the last appended page is shorter than `limit`, every earlier
page being exactly full.  However the number of pages is `N / limit + 1`
(integer division), which equals ⌈N/limit⌉ only when `limit` does not
divide `N`; when it does, an extra final empty page is fetched. -/
theorem C5_pagination (data : List Product) (limit : ℕ) (hl : 0 < limit)
    (hids : (data.map (fun prod => prod.id)).Nodup) :
    (∀ p i : ℕ, (pageSlice data p limit)[i]?
      = if i < limit then data[p * limit + i]? else none) ∧
    (infiniteQueryPages data limit).flatten = data ∧
    ((infiniteQueryPages data limit).flatten.map (fun prod => prod.id)).Nodup ∧
    (infiniteQueryPages data limit).length = data.length / limit + 1 ∧
    (∀ pg ∈ (infiniteQueryPages data limit).dropLast, pg.length = limit) ∧
    (∀ pg, (infiniteQueryPages data limit).getLast? = some pg →
      pg.length < limit) ∧
    (∀ (lastPage : List Product) (allPagesLength : ℕ),
      getNextPageParam lastPage allPagesLength limit = none
        ↔ lastPage.length < limit) := by
  obtain ⟨h1, h2, h3, h4⟩ :=
    fetchAllPages_spec limit hl (data.length + 1) data (Nat.lt_succ_self _)
  refine ⟨?_, h2, ?_, h1, h3, h4, ?_⟩
  · intro p i
    dsimp only [pageSlice]
    rw [List.getElem?_take]
    by_cases hi : i < limit
    · rw [if_pos hi, if_pos hi, List.getElem?_drop]
    · rw [if_neg hi, if_neg hi]
  · have hflat : (infiniteQueryPages data limit).flatten = data := h2
    rw [hflat]
    exact hids
  · intro lastPage allPagesLength
    constructor
    · intro h
      by_cases hc : lastPage.length < limit
      · exact hc
      · dsimp only [getNextPageParam] at h
        rw [if_neg hc] at h
        cases h
    · intro h
      dsimp only [getNextPageParam]
      rw [if_pos h]

/-- C5 witness: the amended theorem at a one-item source with page size 2:
the flattened pages reproduce the source. -/
theorem C5_witness :
    (infiniteQueryPages [sampleProduct] 2).flatten = [sampleProduct] :=
  (C5_pagination [sampleProduct] 2 (by decide) (by decide)).2.1

/-- C10: the `useProduct(id)` query is gated at the interface: the query can
run only when `id` is truthy and converts to a number strictly greater
than 0; for `id = 0`, the empty string and a non-numeric string the gate is
closed, so `fetchProduct` is never invoked for them. -/
theorem C10_useProduct_gate (id : JsId) :
    (useProductEnabled id = true →
      jsTruthy id = true ∧ ∃ n : ℚ, toNumber id = JsNumber.val n ∧ 0 < n) ∧
    useProductEnabled (JsId.num 0) = false ∧
    useProductEnabled (JsId.str "") = false ∧
    useProductEnabled (JsId.str "abc") = false := by
  refine ⟨?_, by decide, by decide, by decide⟩
  intro h
  rw [useProductEnabled, Bool.and_eq_true] at h
  refine ⟨h.1, ?_⟩
  cases hn : toNumber id with
  | val q =>
      refine ⟨q, rfl, ?_⟩
      have hgt := h.2
      rw [hn] at hgt
      simpa [jsGt] using hgt
  | nan =>
      have hgt := h.2
      rw [hn] at hgt
      simp [jsGt] at hgt

/-- C10 witness: the gate theorem at a valid numeric id. -/
theorem C10_witness :
    jsTruthy (JsId.num 5) = true ∧
    ∃ n : ℚ, toNumber (JsId.num 5) = JsNumber.val n ∧ 0 < n :=
  (C10_useProduct_gate (JsId.num 5)).1 (by decide)

end Getleeta
